import Mathlib

/-!
Verification of `resolve_backfill_window` and the `backfill` command from
`flytekit/clis/sdk_in_container/backfill.py`.

Modelling choices:
* A Python `datetime` is embedded as an absolute timestamp in seconds
  (an `Int` wrapped in a structure).  A Python `datetime` object is always
  truthy, so an optional `datetime` argument is truthy iff it is `some _`.
* A Python `timedelta` is embedded as a signed number of seconds (`Int`).
  `timedelta(0)` is falsy in Python, so an optional `timedelta` argument is
  truthy iff it is `some w` with `w ≠ 0`.
* `click.BadParameter` is embedded as a structure holding the message string;
  the spec-level taxonomy (ConflictingArguments / InsufficientArguments)
  classifies the three concrete messages raised by the source.
* Raising is embedded as `Except BadParameter`.
-/

/-- An absolute timestamp (seconds since some epoch), embedding Python
`datetime`.  Timezone awareness is irrelevant to the arithmetic here: the
source only ever adds or subtracts a `timedelta`. -/
structure DateTime where
  seconds : Int
deriving DecidableEq, Repr

/-- A signed span of time in seconds, embedding Python `timedelta`. -/
abbrev Duration := Int

/-- `datetime + timedelta` from the source line `to_date = from_date + window`. -/
def DateTime.add (t : DateTime) (d : Duration) : DateTime :=
  ⟨t.seconds + d⟩

/-- `datetime - timedelta` from the source line `from_date = to_date - window`. -/
def DateTime.sub (t : DateTime) (d : Duration) : DateTime :=
  ⟨t.seconds - d⟩

/-- Embedding of `click.BadParameter`: the exception type raised by the
resolver, carrying its user-facing message. -/
structure BadParameter where
  message : String
deriving DecidableEq, Repr

/-- The error raised when from-date, to-date and duration are all (truthily)
present — the spec's `ConflictingArguments`. -/
def conflictingArgumentsError : BadParameter :=
  ⟨"Cannot use from-date, to-date and duration. Use any two"⟩

/-- The error raised when neither boundary date is present — one of the spec's
`InsufficientArguments` errors. -/
def insufficientPairError : BadParameter :=
  ⟨"One of following pairs are required -> (from-date, to-date) | (from-date, duration) | (to-date, duration)"⟩

/-- The error raised when only one boundary date is present and the window is
(truthily) absent — the other of the spec's `InsufficientArguments` errors. -/
def insufficientWindowError : BadParameter :=
  ⟨"One of start-date and end-date are needed with duration"⟩

/-- Spec-level classification: is this `BadParameter` one of the two
`InsufficientArguments` messages? -/
def isInsufficientArguments (e : BadParameter) : Prop :=
  e = insufficientPairError ∨ e = insufficientWindowError

instance (e : BadParameter) : Decidable (isInsufficientArguments e) := by
  unfold isInsufficientArguments; infer_instance

/-- Python truthiness of an optional `datetime`: a `datetime` object is always
truthy, so the optional is truthy iff present. -/
def datetimeTruthy (t : Option DateTime) : Bool :=
  t.isSome

/-- Python truthiness of an optional `timedelta`: `timedelta(0)` is falsy, so
the optional is truthy iff present and nonzero. -/
def timedeltaTruthy : Option Duration → Bool
  | none => false
  | some w => w != 0

/-- Embedding of `resolve_backfill_window(from_date, to_date, window)`.

Source control flow, translated branch by branch:
```
if from_date and to_date and window:   raise BadParameter(conflicting...)
if not (from_date or to_date):         raise BadParameter(pair...)
if from_date and to_date:              pass
elif not window:                       raise BadParameter(window...)
elif from_date:                        to_date = from_date + window
else:                                  from_date = to_date - window
return from_date, to_date
```
`from_date`/`to_date` are always truthy when present; `window` is falsy when
absent or equal to the zero duration. -/
def resolve_backfill_window (from_date to_date : Option DateTime)
    (window : Option Duration) : Except BadParameter (DateTime × DateTime) :=
  if datetimeTruthy from_date && datetimeTruthy to_date && timedeltaTruthy window then
    .error conflictingArgumentsError
  else if !(datetimeTruthy from_date || datetimeTruthy to_date) then
    .error insufficientPairError
  else
    match from_date, to_date with
    | some f, some t => .ok (f, t)
    | some f, none =>
        match window with
        | none => .error insufficientWindowError
        | some w =>
            if w == 0 then .error insufficientWindowError
            else .ok (f, f.add w)
    | none, some t =>
        match window with
        | none => .error insufficientWindowError
        | some w =>
            if w == 0 then .error insufficientWindowError
            else .ok (t.sub w, t)
    | none, none => .error insufficientPairError

/-- Observable actions of the `backfill` command body that touch the network
(remote-client construction and the launch call). -/
inductive RemoteAction where
  | getRemote
  | launchBackfill (from_date to_date : DateTime)
deriving DecidableEq, Repr

/-- Embedding of the `backfill` command body, as far as the claims need it:
the command first calls `resolve_backfill_window`; a raised `BadParameter`
propagates (click aborts the invocation) before
`get_and_save_remote_with_click_context` or `remote.launch_backfill` run.
On success the command constructs the remote and launches the backfill with
the resolved pair. -/
def backfill (from_date to_date : Option DateTime) (window : Option Duration) :
    Except BadParameter (List RemoteAction) :=
  match resolve_backfill_window from_date to_date window with
  | .error e => .error e
  | .ok (f, t) => .ok [RemoteAction.getRemote, RemoteAction.launchBackfill f t]

/-- The network actions actually performed by an invocation of `backfill`:
none when it aborts with an error. -/
def backfillNetworkActions (from_date to_date : Option DateTime)
    (window : Option Duration) : List RemoteAction :=
  match backfill from_date to_date window with
  | .error _ => []
  | .ok acts => acts

/-! ## Claims -/

/-- C1 counterexample: with all three arguments present but the window equal
to the zero duration, `resolve_backfill_window` does not raise
`ConflictingArguments` — it returns the pair of dates (Python's
`timedelta(0)` is falsy, so the conflict test does not fire). -/
theorem C1_counterexample :
    resolve_backfill_window (some ⟨0⟩) (some ⟨3600⟩) (some 0)
        ≠ Except.error conflictingArgumentsError ∧
    resolve_backfill_window (some ⟨0⟩) (some ⟨3600⟩) (some 0)
        = Except.ok (⟨0⟩, ⟨3600⟩) := by
  constructor
  · simp [resolve_backfill_window, datetimeTruthy, timedeltaTruthy]
  · rfl

/-- C1 (amended): for every input triple in which `from_date`, `to_date` and
`window` are all present and the window is a nonzero duration,
`resolve_backfill_window` fails with the `ConflictingArguments` error,
whatever the values of the three arguments are. -/
theorem C1_all_present_nonzero_window_conflicts
    (f t : DateTime) (w : Duration) (h : w ≠ 0) :
    resolve_backfill_window (some f) (some t) (some w)
        = Except.error conflictingArgumentsError := by
  simp [resolve_backfill_window, datetimeTruthy, timedeltaTruthy, h]

/-- C1 witness: concrete instance of the amended claim. -/
theorem C1_witness :
    resolve_backfill_window (some ⟨0⟩) (some ⟨3600⟩) (some 604800)
        = Except.error conflictingArgumentsError :=
  C1_all_present_nonzero_window_conflicts ⟨0⟩ ⟨3600⟩ 604800 (by decide)

/-- C2 counterexample: with only `from_date` present and a present
zero-duration window, `resolve_backfill_window` raises `InsufficientArguments`
instead of returning `(T, T + 0)`. -/
theorem C2_counterexample :
    resolve_backfill_window (some ⟨0⟩) none (some 0)
        ≠ Except.ok (⟨0⟩, (DateTime.mk 0).add 0) ∧
    resolve_backfill_window (some ⟨0⟩) none (some 0)
        = Except.error insufficientWindowError := by
  constructor
  · simp [resolve_backfill_window, datetimeTruthy, timedeltaTruthy]
  · rfl

/-- C2 (amended): for every datetime `T` and every present nonzero duration
`D`, `resolve_backfill_window` with only `from_date = T` and `window = D`
returns `(T, T + D)`, and with only `to_date = T` and `window = D` returns
`(T - D, T)`. -/
theorem C2_window_arithmetic (T : DateTime) (D : Duration) (h : D ≠ 0) :
    resolve_backfill_window (some T) none (some D) = Except.ok (T, T.add D) ∧
    resolve_backfill_window none (some T) (some D) = Except.ok (T.sub D, T) := by
  constructor <;>
    simp [resolve_backfill_window, datetimeTruthy, timedeltaTruthy, h]

/-- C2 witness: from `2023-01-01` (epoch seconds 1672531200) with a 7-day
window (604800 s) the resolver returns `2023-01-01 .. 2023-01-08`. -/
theorem C2_witness :
    resolve_backfill_window (some ⟨1672531200⟩) none (some 604800)
        = Except.ok (⟨1672531200⟩, (DateTime.mk 1672531200).add 604800) ∧
    resolve_backfill_window none (some ⟨1672531200⟩) (some 604800)
        = Except.ok ((DateTime.mk 1672531200).sub 604800, ⟨1672531200⟩) :=
  C2_window_arithmetic ⟨1672531200⟩ 604800 (by decide)

/-- C3: for every input in which both `from_date` and `to_date` are absent,
`resolve_backfill_window` fails with an `InsufficientArguments` error,
regardless of whether `window` is present or absent and regardless of its
value. -/
theorem C3_no_dates_insufficient (window : Option Duration) :
    resolve_backfill_window none none window
        = Except.error insufficientPairError ∧
    isInsufficientArguments insufficientPairError := by
  constructor
  · simp [resolve_backfill_window, datetimeTruthy]
  · left; rfl

/-- C4: for every input in which exactly one of `from_date`/`to_date` is
present and `window` is absent, `resolve_backfill_window` fails with an
`InsufficientArguments` error. -/
theorem C4_one_date_no_window_insufficient (d : DateTime) :
    resolve_backfill_window (some d) none none
        = Except.error insufficientWindowError ∧
    resolve_backfill_window none (some d) none
        = Except.error insufficientWindowError ∧
    isInsufficientArguments insufficientWindowError := by
  refine ⟨rfl, rfl, Or.inr rfl⟩

/-- C5: for every pair of present datetimes and every window value that does
not trigger the all-three-present conflict rule (the first branch of the
resolver), `resolve_backfill_window` succeeds and returns exactly the input
pair unchanged. -/
theorem C5_both_dates_returned_unchanged
    (f t : DateTime) (w : Option Duration)
    (h : resolve_backfill_window (some f) (some t) w
        ≠ Except.error conflictingArgumentsError) :
    resolve_backfill_window (some f) (some t) w = Except.ok (f, t) := by
  by_cases hw : timedeltaTruthy w = true
  · exact absurd (by simp [resolve_backfill_window, datetimeTruthy, hw]) h
  · simp [resolve_backfill_window, datetimeTruthy, hw]

/-- C5 witness: concrete instance with both dates present and no window. -/
theorem C5_witness :
    resolve_backfill_window (some ⟨0⟩) (some ⟨3600⟩) none
        = Except.ok (⟨0⟩, ⟨3600⟩) :=
  C5_both_dates_returned_unchanged ⟨0⟩ ⟨3600⟩ none
    (by simp [resolve_backfill_window, datetimeTruthy, timedeltaTruthy])

/-- C6: `resolve_backfill_window` is total over the space of optional
triples: every combination of present/absent arguments either returns a
`(from_date, to_date)` pair or fails with exactly one of the two errors,
`ConflictingArguments` or `InsufficientArguments`; no other outcome exists. -/
theorem C6_total_two_error_kinds
    (from_date to_date : Option DateTime) (window : Option Duration) :
    (∃ p, resolve_backfill_window from_date to_date window = Except.ok p) ∨
    resolve_backfill_window from_date to_date window
        = Except.error conflictingArgumentsError ∨
    (∃ e, resolve_backfill_window from_date to_date window = Except.error e ∧
        isInsufficientArguments e) := by
  rcases from_date with _ | f <;> rcases to_date with _ | t <;>
    rcases window with _ | w <;>
    simp [resolve_backfill_window, datetimeTruthy, timedeltaTruthy,
      isInsufficientArguments] <;>
    by_cases hw : w = 0 <;> simp [hw]

/-- C7: for every invocation of the `backfill` command in which
`resolve_backfill_window` fails, the command performs no network action:
neither remote-client construction nor `launch_backfill` is reached, and the
error propagates unchanged. -/
theorem C7_no_network_on_failure
    (from_date to_date : Option DateTime) (window : Option Duration)
    (e : BadParameter)
    (h : resolve_backfill_window from_date to_date window = Except.error e) :
    backfillNetworkActions from_date to_date window = [] ∧
    backfill from_date to_date window = Except.error e := by
  constructor
  · simp [backfillNetworkActions, backfill, h]
  · simp [backfill, h]

/-- C7 witness: the no-arguments invocation fails and performs no network
action. -/
theorem C7_witness :
    backfillNetworkActions none none none = [] ∧
    backfill none none none = Except.error insufficientPairError :=
  C7_no_network_on_failure none none none insufficientPairError rfl

/-- C8: `resolve_backfill_window` does not guarantee `from_date <= to_date`
on its output: with only `from_date` present and a negative one-day window
the returned pair has `from_date` strictly greater than `to_date`. -/
theorem C8_output_order_not_enforced :
    resolve_backfill_window (some ⟨0⟩) none (some (-86400))
        = Except.ok (⟨0⟩, ⟨-86400⟩) ∧
    (DateTime.mk (-86400)).seconds < (DateTime.mk 0).seconds := by
  exact ⟨rfl, by decide⟩

/-- C9: a supplied zero-duration window is treated as absent: with both dates
present and a zero window the call succeeds with the pair (no
`ConflictingArguments`), and with exactly one date present and a zero window
it fails with `InsufficientArguments` instead of doing date arithmetic. -/
theorem C9_zero_window_as_absent (f t : DateTime) :
    resolve_backfill_window (some f) (some t) (some 0) = Except.ok (f, t) ∧
    resolve_backfill_window (some f) none (some 0)
        = Except.error insufficientWindowError ∧
    resolve_backfill_window none (some t) (some 0)
        = Except.error insufficientWindowError ∧
    isInsufficientArguments insufficientWindowError := by
  refine ⟨?_, rfl, rfl, Or.inr rfl⟩
  simp [resolve_backfill_window, datetimeTruthy, timedeltaTruthy]

/-- C10: `resolve_backfill_window` is deterministic and side-effect free in
the embedding: any two calls with equal arguments produce the same outcome. -/
theorem C10_deterministic
    (f₁ f₂ t₁ t₂ : Option DateTime) (w₁ w₂ : Option Duration)
    (hf : f₁ = f₂) (ht : t₁ = t₂) (hw : w₁ = w₂) :
    resolve_backfill_window f₁ t₁ w₁ = resolve_backfill_window f₂ t₂ w₂ := by
  rw [hf, ht, hw]

/-- C10 witness: concrete instance of determinism. -/
theorem C10_witness :
    resolve_backfill_window (some ⟨0⟩) none (some 604800)
        = resolve_backfill_window (some ⟨0⟩) none (some 604800) :=
  C10_deterministic (some ⟨0⟩) (some ⟨0⟩) none none (some 604800)
    (some 604800) rfl rfl rfl
